import Mathlib

/-!
Shallow embedding of `src/fitting/proton_core_3D.py` (Helios 3-D proton core
fitting).  Numeric float values are embedded as rationals (`ℚ`), `np.nan` as
`none` in `Option ℚ`, timestamps as rational seconds.  The Python output
dictionary is embedded as an association list over an enumerated key type so
that "which keys are present" is a real question about each code path, the
way it is for a Python `dict`.

External collaborators that are not part of this repository
(`scipy.optimize.leastsq`, `helpers.rotationmatrix`,
`heliopy.plasma.temp2vth` / `vth2temp`, and the float square root used via
`np.std` / `np.linalg.norm`) are supplied as parameters in a context
structure `Ctx`; the fitting driver is a function of that context.
-/

/-- Keys of the output dictionary built by `iondistfitting` / `return_nans`
(`proton_core_3D.py`, lines 31-52 and 73-263).  In Python these are string
keys of a `dict`; they are enumerated here so that key membership is a
decidable, fast question. -/
inductive FieldKey where
  | n_p | vth_p_perp | vth_p_par | Tp_perp | Tp_par
  | vp_x | vp_y | vp_z
  | Time | Status | Instrument
  | B_instrument | Bx | By | Bz | sigmaB
  deriving DecidableEq, Repr

/-- Output record: insertion-ordered association list, one entry per dict key.
Values are `Option ℚ`: `none` embeds the float `np.nan` "missing" sentinel. -/
abbrev OutRec := List (FieldKey × Option ℚ)

/-- Dictionary assignment `r[k] = v`: overwrite in place if the key exists
(keeping its position, as a Python dict does), else append. -/
def recInsert (r : OutRec) (k : FieldKey) (v : Option ℚ) : OutRec :=
  match r with
  | [] => [(k, v)]
  | (k', v') :: t => if k' = k then (k, v) :: t else (k', v') :: recInsert t k v

/-- Dictionary lookup: `some v` iff the key is present with value `v`. -/
def recFind (r : OutRec) (k : FieldKey) : Option (Option ℚ) :=
  match r with
  | [] => none
  | (k', v') :: t => if k' = k then some v' else recFind t k

/-- Keys of a record, in order. -/
def recKeys (r : OutRec) : List FieldKey := r.map Prod.fst

/-- Python `dict.update`: insert every entry of `s` into `r`, in order. -/
def recUpdate (r s : OutRec) : OutRec :=
  s.foldl (fun acc kv => recInsert acc kv.1 kv.2) r

/-- One row of the 3-D ion distribution `dist` (a pandas DataFrame in the
code): spacecraft-frame velocity components and speed in m/s, probability
density, raw count, and the energy / azimuth / elevation bin indices of the
MultiIndex. -/
structure Sample where
  vx : ℚ
  vy : ℚ
  vz : ℚ
  vabs : ℚ
  pdf : ℚ
  counts : ℚ
  E_bin : ℤ
  Az : ℤ
  El : ℤ

/-- One row of the auxiliary 1-D distribution `I1a`: the row's index label,
its velocity (km/s) and distribution-function value.  `I1a['v'].max()` and
`I1a['df'].argmax()` are read off these rows. -/
structure I1aRow where
  idx : ℚ
  v : ℚ
  df : ℚ

/-- One row of a magnetic field time series (`mag4hz` / `mag6s`): timestamp
(seconds) and field components. -/
structure MagSample where
  t : ℚ
  Bx : ℚ
  By : ℚ
  Bz : ℚ

/-- The auxiliary 1-D fit summary `fit_1D`: its status code and proton
temperature estimate (`none` embeds a non-finite `T_p`). -/
structure Fit1D where
  status : ℤ
  T_p : Option ℚ

/-- Per-distribution parameters `params`: ion instrument id and the two
spacecraft aberration velocities (km/s). -/
structure DistParams where
  ion_instrument : ℤ
  helios_vr : ℚ
  helios_v : ℚ

/-- A 3-vector of rationals. -/
structure Vec3 where
  x : ℚ
  y : ℚ
  z : ℚ

/-- A 3×3 matrix given by its rows. -/
structure Mat3 where
  r1 : Vec3
  r2 : Vec3
  r3 : Vec3

/-- Dot product of two 3-vectors. -/
def dot3 (a b : Vec3) : ℚ := a.x * b.x + a.y * b.y + a.z * b.z

/-- Matrix-vector product. -/
def matvec (M : Mat3) (v : Vec3) : Vec3 := ⟨dot3 M.r1 v, dot3 M.r2 v, dot3 M.r3 v⟩

/-- Matrix transpose. -/
def transposeM (M : Mat3) : Mat3 :=
  ⟨⟨M.r1.x, M.r2.x, M.r3.x⟩, ⟨M.r1.y, M.r2.y, M.r3.y⟩, ⟨M.r1.z, M.r2.z, M.r3.z⟩⟩

/-- Squared Euclidean norm of a 3-vector.  The code compares `np.linalg.norm`
values, which (for non-negative reals) order exactly as their squares do, so
the embedding compares squared norms. -/
def normSq (v : Vec3) : ℚ := v.x * v.x + v.y * v.y + v.z * v.z

/-- The optimiser's 6 fit parameters (`fitout[0]`): amplitude, perpendicular
and parallel thermal speed, bulk velocity in the (possibly rotated) frame. -/
structure FitParams6 where
  A : ℚ
  vthPerp : ℚ
  vthPar : ℚ
  vbx : ℚ
  vby : ℚ
  vbz : ℚ

/-- External collaborators used by `iondistfitting` (not source files of this
repository): the nonlinear solver, the rotation-matrix helper, the
heliopy unit conversions, the float value of `np.power(np.pi, 1.5)` and the
float square root (reached through `np.std` / `np.linalg.norm`). -/
structure Ctx where
  leastsq : FitParams6 → List Vec3 → List ℚ → FitParams6 × ℤ
  rotmat : Vec3 → Mat3
  temp2vthF : Option ℚ → Option ℚ
  vth2tempF : ℚ → ℚ
  pi32 : ℚ
  sqrtQ : ℚ → ℚ

/-- Minimum of a list of rationals (`np.min`; the default for `[]` is never
reached where the code applies it, since emptiness is gated earlier). -/
def qmin : List ℚ → ℚ
  | [] => 0
  | h :: t => t.foldl min h

/-- Maximum of a list of rationals (`np.max`). -/
def qmax : List ℚ → ℚ
  | [] => 0
  | h :: t => t.foldl max h

/-- Minimum of a list of integers. -/
def zmin : List ℤ → ℤ
  | [] => 0
  | h :: t => t.foldl min h

/-- Maximum of a list of integers. -/
def zmax : List ℤ → ℤ
  | [] => 0
  | h :: t => t.foldl max h

/-- Lines 34-52: the all-missing record returned on every rejection path.
All physical and magnetic-field entries are the missing sentinel; only
`Time`, `Status` and `Instrument` carry data. -/
def return_nans (status : ℤ) (time : ℚ) (instrument : ℤ) : OutRec :=
  [(.n_p, none), (.vth_p_perp, none), (.vth_p_par, none),
   (.Tp_perp, none), (.Tp_par, none),
   (.vp_x, none), (.vp_y, none), (.vp_z, none),
   (.Time, some time), (.Status, some ((status : ℤ) : ℚ)),
   (.Instrument, some ((instrument : ℤ) : ℚ)),
   (.B_instrument, none), (.Bx, none), (.By, none), (.Bz, none),
   (.sigmaB, none)]

/-- A dynamically typed Python value, used to model the
`assert type(status) == int` check at line 33. -/
inductive PyVal where
  | pyInt : ℤ → PyVal
  | pyFloat : ℚ → PyVal
  | pyStr : String → PyVal

/-- Truth of `type(v) == int` for a Python value. -/
def PyVal.isInt : PyVal → Bool
  | .pyInt _ => true
  | _ => false

/-- Lines 31-52 with the assertion modelled: calling `return_nans` with a
non-integer status raises `AssertionError` (embedded as `Except.error`);
with an integer status it returns the all-missing record. -/
def return_nansPy (status : PyVal) (time : ℚ) (instrument : ℤ) :
    Except String OutRec :=
  match status with
  | .pyInt s => .ok (return_nans s time instrument)
  | _ => .error "Status code must be an integer"

/-- Line 84: `I1a['v'].max()` — `none` for an empty frame (pandas gives
`nan`, and a `nan` bound makes the comparison below false for every row). -/
def vmax1a : List I1aRow → Option ℚ
  | [] => none
  | h :: t => some (t.foldl (fun m r => max m r.v) h.v)

/-- Line 84: `dist = dist[dist['|v|'] <= I1a['v'].max() * 1e3]`.  With an
empty `I1a` the `nan` bound filters every row out. -/
def truncDist (dist : List Sample) (I1a : List I1aRow) : List Sample :=
  match vmax1a I1a with
  | none => []
  | some m => dist.filter (fun s => decide (s.vabs ≤ m * 1000))

/-- Line 99: `I1a['df'].argmax()` — the index label of the first row
attaining the maximum of the `df` column (never applied to `[]`). -/
def dfArgmax : List I1aRow → ℚ
  | [] => 0
  | h :: t => (t.foldl (fun b r => if r.df > b.df then r else b) h).idx

/-- Lines 76-100: the pre-fit validation gates, in source order; `some s`
is the status of the first failing gate, `none` means the fit proceeds. -/
def preGateStatus (dist : List Sample) (fit_1D : Fit1D) (I1a : List I1aRow) :
    Option ℤ :=
  if fit_1D.status = 9 then some 9
  else if dist.any (fun s => decide (s.counts < 0)) then some 9
  else
    let d := truncDist dist I1a
    if d.length ≤ 6 then some 5
    else if (d.map Sample.Az).dedup.length < 3 ∨
            (d.map Sample.El).dedup.length < 3 then some 12
    else if I1a.length ≠ 0 ∧ qmin (d.map (fun s => s.vabs / 1000)) > dfArgmax I1a then
      some 10
    else none

/-- Line 104: `dist_starttime = starttime + timedelta(seconds=min(E_bins))`. -/
def stOf (d : List Sample) (starttime : ℚ) : ℚ :=
  starttime + ((zmin (d.map Sample.E_bin) : ℤ) : ℚ)

/-- Line 105: `dist_endtime = starttime + timedelta(seconds=max(E_bins)+1)`. -/
def etOf (d : List Sample) (starttime : ℚ) : ℚ :=
  starttime + ((zmax (d.map Sample.E_bin) : ℤ) : ℚ) + 1

/-- Lines 117-118 / 123-124: rows of a field series strictly inside the
measurement window. -/
def magWindow (s : List MagSample) (stw etw : ℚ) : List MagSample :=
  s.filter (fun m => decide (stw < m.t) && decide (m.t < etw))

/-- Lines 113-134: magnetic-field series selection.  Returns the value
written to `output['B instrument']` and the selected in-window rows
(`none` when `magempty` ends up true).  Note the source's `else` on line
133 also fires when the 4 Hz series is missing/empty and the 6 s series is
`None`, tagging `B instrument = 1` although no field data was found. -/
def magResolve (mag4hz mag6s : Option (List MagSample)) (stw etw : ℚ) :
    Option ℚ × Option (List MagSample) :=
  match mag4hz with
  | some s4 =>
    let m4 := magWindow s4 stw etw
    if m4.isEmpty then
      match mag6s with
      | some s6 =>
        let m6 := magWindow s6 stw etw
        if m6.isEmpty then (none, none) else (some 2, some m6)
      | none => (some 1, none)
    else (some 1, some m4)
  | none =>
    match mag6s with
    | some s6 =>
      let m6 := magWindow s6 stw etw
      if m6.isEmpty then (none, none) else (some 2, some m6)
    | none => (some 1, none)

/-- Line 140: `np.mean(mag, axis=0)`, the componentwise mean field. -/
def magMean (mag : List MagSample) : Vec3 :=
  ⟨(mag.map MagSample.Bx).sum / (mag.length : ℚ),
   (mag.map MagSample.By).sum / (mag.length : ℚ),
   (mag.map MagSample.Bz).sum / (mag.length : ℚ)⟩

/-- Population variance of a list (square of `np.std`). -/
def varOf (xs : List ℚ) : ℚ :=
  ((xs.map (fun x => (x - xs.sum / (xs.length : ℚ)) ^ 2)).sum) / (xs.length : ℚ)

/-- Lines 141-142: `np.linalg.norm(np.std(mag, axis=0))` equals the square
root of the sum of the three per-component variances; this is that sum, the
square root being applied by `Ctx.sqrtQ` at the use site. -/
def magVarSum (mag : List MagSample) : ℚ :=
  varOf (mag.map MagSample.Bx) + varOf (mag.map MagSample.By) +
    varOf (mag.map MagSample.Bz)

/-- Line 111: spacecraft-frame sample velocities in km/s. -/
def vsOf (d : List Sample) : List Vec3 :=
  d.map (fun s => ⟨s.vx / 1000, s.vy / 1000, s.vz / 1000⟩)

/-- Line 109: the probability-density column. -/
def dfOf (d : List Sample) : List ℚ :=
  d.map Sample.pdf

/-- Lines 163-165: probability-density-weighted mean of one velocity
component, `np.sum(df * v) / np.sum(df)`. -/
def wmean (df xs : List ℚ) : ℚ :=
  (List.zipWith (· * ·) df xs).sum / df.sum

/-- Lines 168-170: thermal-speed initial guess from the 1-D temperature,
defaulting to 40 when non-finite or outside [10, 100]. -/
def vthpGuess (ctx : Ctx) (fit_1D : Fit1D) : ℚ :=
  match ctx.temp2vthF fit_1D.T_p with
  | none => 40
  | some v => if v < 10 ∨ v > 100 then 40 else v

/-- Lines 159-172: the 6-tuple of initial guesses handed to the solver. -/
def guessesOf (ctx : Ctx) (fit_1D : Fit1D) (vprime : List Vec3) (df : List ℚ) :
    FitParams6 :=
  ⟨qmax df, vthpGuess ctx fit_1D, vthpGuess ctx fit_1D,
   wmean df (vprime.map Vec3.x), wmean df (vprime.map Vec3.y),
   wmean df (vprime.map Vec3.z)⟩

/-- Lines 204-211: the spacecraft-frame bulk velocity — the raw fitted
velocity when there is no field context, else `R.T @ v`. -/
def scVel (Ropt : Option Mat3) (fp : FitParams6) : Vec3 :=
  match Ropt with
  | none => ⟨fp.vbx, fp.vby, fp.vbz⟩
  | some R => matvec (transposeM R) ⟨fp.vbx, fp.vby, fp.vbz⟩

/-- Lines 215-219: the bulk-velocity bounds check.  `True` iff some axis
component leaves the per-axis sample range, or the squared bulk speed is
below the minimum squared sample speed (the source compares
`np.linalg.norm` values; squaring both sides preserves the strict order on
non-negative reals, so the two tests agree everywhere). -/
def velOutOfBounds (v : Vec3) (vs : List Vec3) : Bool :=
  decide (v.x < qmin (vs.map Vec3.x)) || decide (qmax (vs.map Vec3.x) < v.x) ||
  decide (v.y < qmin (vs.map Vec3.y)) || decide (qmax (vs.map Vec3.y) < v.y) ||
  decide (v.z < qmin (vs.map Vec3.z)) || decide (qmax (vs.map Vec3.z) < v.z) ||
  decide (normSq v < qmin (vs.map normSq))

/-- Lines 203-250: `process_fitparams` for species `'p'`.  When `magempty`
the thermal-speed slots are first overwritten with `nan` (line 208), which
then propagates through `|.|`, `vth2temp` and — via the `fitparams[1]`,
`fitparams[2]` factors of line 230 — through the density `n_p`.
`Sum.inl 4` embeds the early `return 4`. -/
def process_fitparams (ctx : Ctx) (params : DistParams) (Ropt : Option Mat3)
    (vs : List Vec3) (fp : FitParams6) : Sum ℤ OutRec :=
  let v := scVel Ropt fp
  let vthPerpO : Option ℚ := match Ropt with | none => none | some _ => some fp.vthPerp
  let vthParO : Option ℚ := match Ropt with | none => none | some _ => some fp.vthPar
  if velOutOfBounds v vs then Sum.inl 4
  else
    let vthPerpA := vthPerpO.map (fun x => |x|)
    let vthParA := vthParO.map (fun x => |x|)
    let n : Option ℚ :=
      match vthPerpO, vthParO with
      | some b, some c =>
        some (fp.A * ctx.pi32 * |b| * 1000 * |b| * 1000 * |c| * 1000 *
          (1 / 1000000))
      | _, _ => none
    Sum.inr [(.vth_p_perp, vthPerpA), (.vth_p_par, vthParA),
             (.Tp_perp, vthPerpA.map ctx.vth2tempF),
             (.Tp_par, vthParA.map ctx.vth2tempF),
             (.n_p, n),
             (.vp_x, some (v.x + params.helios_vr)),
             (.vp_y, some (v.y + params.helios_v)),
             (.vp_z, some v.z)]

/-- Line 188: the solver statuses accepted as convergence. -/
abbrev converged (fst : ℤ) : Prop := fst = 1 ∨ fst = 2 ∨ fst = 3 ∨ fst = 4

/-- Lines 193-194: the fitted amplitude is more than 20 times, or less than
0.1 times, the observed maximum probability density. -/
abbrev ampOutOfRange (fp : FitParams6) (df : List ℚ) : Prop :=
  fp.A > 20 * qmax df ∨ fp.A < (1 / 10) * qmax df

/-- Lines 198-199: a fitted thermal speed below 5. -/
abbrev vthDegenerate (fp : FitParams6) : Prop :=
  fp.vthPerp < 5 ∨ fp.vthPar < 5

/-- Lines 159-263: everything from initial-guess construction onwards —
solver call, convergence check (status 6), the two field-gated
plausibility gates (status 11 / 12), `process_fitparams` (status 4), and
assembly of the success record with status 1 (field context) or 2 (none).
`Ropt` is the rotation matrix when field data was found (`magempty` is its
absence). -/
def fitStage (ctx : Ctx) (output : OutRec) (params : DistParams)
    (fit_1D : Fit1D) (Ropt : Option Mat3) (vs vprime : List Vec3)
    (df : List ℚ) (starttime : ℚ) (instrument : ℤ) : OutRec :=
  let fr := ctx.leastsq (guessesOf ctx fit_1D vprime df) vprime df
  if converged fr.2 then
    if ampOutOfRange fr.1 df ∧ Ropt.isSome = true then
      return_nans 11 starttime instrument
    else if vthDegenerate fr.1 ∧ Ropt.isSome = true then
      return_nans 12 starttime instrument
    else
      match process_fitparams ctx params Ropt vs fr.1 with
      | .inl s => return_nans s starttime instrument
      | .inr fd =>
        let out1 := recUpdate output fd
        let status : ℤ := if Ropt.isSome = true then 1 else 2
        recInsert (recInsert (recInsert out1 .Time (some starttime))
          .Status (some ((status : ℤ) : ℚ)))
          .Instrument (some ((instrument : ℤ) : ℚ))
  else return_nans 6 starttime instrument

/-- Lines 102-158: measurement window, magnetic-field resolution, the
mean-field / sigma-B entries of the output record, frame rotation, then
hand-off to `fitStage`. -/
def afterGates (ctx : Ctx) (output : OutRec) (d : List Sample)
    (params : DistParams) (fit_1D : Fit1D)
    (mag4hz mag6s : Option (List MagSample)) (starttime : ℚ)
    (instrument : ℤ) : OutRec :=
  let res := magResolve mag4hz mag6s (stOf d starttime) (etOf d starttime)
  let out1 := recInsert output .B_instrument res.1
  let vs := vsOf d
  let df := dfOf d
  match res.2 with
  | some mag =>
    let B := magMean mag
    let out2 := recInsert (recInsert (recInsert (recInsert out1
      .Bx (some B.x)) .By (some B.y)) .Bz (some B.z))
      .sigmaB (some (ctx.sqrtQ (magVarSum mag)))
    let R := ctx.rotmat B
    fitStage ctx out2 params fit_1D (some R) vs (vs.map (matvec R)) df
      starttime instrument
  | none =>
    let out2 := recInsert (recInsert (recInsert (recInsert out1
      .Bx none) .By none) .Bz none) .sigmaB none
    fitStage ctx out2 params fit_1D none vs vs df starttime instrument

/-- Lines 68-274: the fit driver.  `I1b` and `plotfigs` are accepted, as in
the source, but influence nothing but diagnostics. -/
def iondistfitting (ctx : Ctx) (dist : List Sample) (params : DistParams)
    (fit_1D : Fit1D) (mag4hz mag6s : Option (List MagSample))
    (starttime : ℚ) (I1a I1b : List I1aRow) (plotfigs : Bool := false) :
    OutRec :=
  let instrument := params.ion_instrument
  let output := recInsert [] .Instrument (some ((instrument : ℤ) : ℚ))
  match preGateStatus dist fit_1D I1a with
  | some s => return_nans s starttime instrument
  | none =>
    afterGates ctx output (truncDist dist I1a) params fit_1D mag4hz mag6s
      starttime instrument

/-- Lines 55-65: the bi-Maxwellian forward model (over the reals; its
exponential plays no role in the control flow verified here, since the
solver that consumes it is an external collaborator). -/
noncomputable def bi_maxwellian_3D (vx vy vz A vth_perp vth_z vbx vby vbz : ℝ) : ℝ :=
  A * Real.exp (-(((vx - vbx) / vth_perp) ^ 2 + ((vy - vby) / vth_perp) ^ 2 +
    ((vz - vbz) / vth_z) ^ 2))

/-- Boltzmann constant (SI), the proportionality constant of the
heliopy thermal-speed/temperature conversion. -/
noncomputable def kB : ℝ := 1.38064852e-23

/-- Modelled from the spec: `heliopy.plasma.temp2vth` is not a source file
of this repository; per §4.2 it converts a temperature to a thermal speed
under the ideal-gas relation (temperature ∝ mass × speed²). -/
noncomputable def temp2vth (T m : ℝ) : ℝ := Real.sqrt (2 * kB * T / m)

/-- Modelled from the spec: `heliopy.plasma.vth2temp` is not a source file
of this repository; per §4.2 it is the inverse conversion, thermal speed to
temperature, for the same particle mass. -/
noncomputable def vth2temp (vth m : ℝ) : ℝ := m * vth ^ 2 / (2 * kB)

/-- Line 78: the auxiliary 1-D fit reports two distributions in one file. -/
abbrev gateTwoDists (fit_1D : Fit1D) : Prop := fit_1D.status = 9

/-- Line 81: some raw count is negative. -/
abbrev gateNegCounts (dist : List Sample) : Prop :=
  dist.any (fun s => decide (s.counts < 0)) = true

/-- Line 87: at most 6 samples survive the velocity truncation. -/
abbrev gateFewPoints (dist : List Sample) (I1a : List I1aRow) : Prop :=
  (truncDist dist I1a).length ≤ 6

/-- Lines 90-92: fewer than 3 distinct azimuth or elevation bins remain. -/
abbrev gateFewAngles (dist : List Sample) (I1a : List I1aRow) : Prop :=
  ((truncDist dist I1a).map Sample.Az).dedup.length < 3 ∨
  ((truncDist dist I1a).map Sample.El).dedup.length < 3

/-- Lines 98-99: the minimum sample velocity lies above the 1-D peak
estimate. -/
abbrev gateNoPeak (dist : List Sample) (I1a : List I1aRow) : Prop :=
  I1a.length ≠ 0 ∧
  qmin ((truncDist dist I1a).map (fun s => s.vabs / 1000)) > dfArgmax I1a

/-- The full field list of the output data model (spec §3): every record the
driver returns carries exactly these keys. -/
def allFields : List FieldKey :=
  [.n_p, .vth_p_perp, .vth_p_par, .Tp_perp, .Tp_par,
   .vp_x, .vp_y, .vp_z, .Time, .Status, .Instrument,
   .B_instrument, .Bx, .By, .Bz, .sigmaB]

/-- Identity matrix, a legitimate value for the external rotation helper
when the mean field already points along the reference axis. -/
def idMat : Mat3 := ⟨⟨1, 0, 0⟩, ⟨0, 1, 0⟩, ⟨0, 0, 1⟩⟩

/-- A concrete context whose solver always returns the given parameters and
status — used to drive the embedded code through specific branches. -/
def mkCtx (fp : FitParams6) (st : ℤ) : Ctx :=
  ⟨fun _ _ _ => (fp, st), fun _ => idMat, fun _ => none, id, 5, fun _ => 0⟩

/-- A concrete well-formed 7-sample distribution: three distinct azimuth and
elevation bins, non-negative counts, speeds 1000 m/s (1 km/s), all in energy
bin 0. -/
def sampleD : List Sample :=
  [⟨1000, 0, 0, 1000, 1, 0, 0, 0, 0⟩,
   ⟨-1000, 0, 0, 1000, 1, 0, 0, 1, 1⟩,
   ⟨0, 1000, 0, 1000, 1, 0, 0, 2, 2⟩,
   ⟨0, -1000, 0, 1000, 1, 0, 0, 0, 1⟩,
   ⟨0, 0, 1000, 1000, 1, 0, 0, 1, 2⟩,
   ⟨0, 0, -1000, 1000, 1, 0, 0, 2, 0⟩,
   ⟨1000, 1000, 1000, 1000, 1, 0, 0, 0, 2⟩]

/-- A concrete 1-D distribution: velocity bound 2 km/s (keeps every sample
of `sampleD`), peak index 5 (above the minimum sample speed, so the proton
peak is considered present). -/
def i1aD : List I1aRow := [⟨5, 2, 1⟩]

/-- A concrete healthy auxiliary 1-D fit. -/
def fit1dD : Fit1D := ⟨1, some 300000⟩

/-- Concrete distribution parameters: instrument 1, no aberration. -/
def paramsD : DistParams := ⟨1, 0, 0⟩

/-- A concrete 4 Hz field series with one sample strictly inside the
measurement window [0, 1] of `sampleD`. -/
def mag4D : Option (List MagSample) := some [⟨1 / 2, 0, 0, 1⟩]

/-- A concrete 6 s field series whose only sample lies outside the window. -/
def mag6Dout : Option (List MagSample) := some [⟨10, 0, 0, 1⟩]

/-- A distribution carrying a negative raw count (and too few samples):
several pre-fit gates fail at once on it. -/
def dBadD : List Sample := [⟨0, 0, 0, 0, 1, -1, 0, 0, 0⟩]

theorem recFind_insert (r : OutRec) (k : FieldKey) (v : Option ℚ)
    (q : FieldKey) :
    recFind (recInsert r k v) q = if k = q then some v else recFind r q := by
  induction r with
  | nil => simp [recInsert, recFind]
  | cons hd t ih =>
    obtain ⟨k', v'⟩ := hd
    by_cases hk : k' = k
    · subst hk
      by_cases hq : k' = q
      · subst hq
        simp [recInsert, recFind]
      · simp [recInsert, recFind, hq]
    · by_cases hq : k' = q
      · subst hq
        simp [recInsert, recFind, hk, Ne.symm hk]
      · simp [recInsert, recFind, hk, hq, ih]

theorem preGate_mem (dist : List Sample) (fit_1D : Fit1D) (I1a : List I1aRow)
    (s : ℤ) (h : preGateStatus dist fit_1D I1a = some s) :
    s = 9 ∨ s = 5 ∨ s = 12 ∨ s = 10 := by
  simp only [preGateStatus] at h
  split_ifs at h <;> simp_all

theorem iondist_pre (ctx : Ctx) (dist : List Sample) (params : DistParams)
    (fit_1D : Fit1D) (mag4hz mag6s : Option (List MagSample)) (starttime : ℚ)
    (I1a I1b : List I1aRow) (pf : Bool) (s : ℤ)
    (h : preGateStatus dist fit_1D I1a = some s) :
    iondistfitting ctx dist params fit_1D mag4hz mag6s starttime I1a I1b pf =
      return_nans s starttime params.ion_instrument := by
  unfold iondistfitting
  rw [h]

theorem iondist_main (ctx : Ctx) (dist : List Sample) (params : DistParams)
    (fit_1D : Fit1D) (mag4hz mag6s : Option (List MagSample)) (starttime : ℚ)
    (I1a I1b : List I1aRow) (pf : Bool)
    (h : preGateStatus dist fit_1D I1a = none) :
    iondistfitting ctx dist params fit_1D mag4hz mag6s starttime I1a I1b pf =
      afterGates ctx
        (recInsert [] .Instrument (some ((params.ion_instrument : ℤ) : ℚ)))
        (truncDist dist I1a) params fit_1D mag4hz mag6s starttime
        params.ion_instrument := by
  unfold iondistfitting
  rw [h]

theorem process_inl (ctx : Ctx) (params : DistParams) (Ropt : Option Mat3)
    (vs : List Vec3) (fp : FitParams6) (s : ℤ)
    (h : process_fitparams ctx params Ropt vs fp = .inl s) : s = 4 := by
  simp only [process_fitparams] at h
  split at h
  · exact (Sum.inl.inj h).symm
  · exact Sum.noConfusion h

theorem process_inr (ctx : Ctx) (params : DistParams) (Ropt : Option Mat3)
    (vs : List Vec3) (fp : FitParams6) (fd : OutRec)
    (h : process_fitparams ctx params Ropt vs fp = .inr fd) :
    ∃ (w1 w2 t1 t2 n : Option ℚ) (a b c : ℚ),
      fd = [(.vth_p_perp, w1), (.vth_p_par, w2), (.Tp_perp, t1), (.Tp_par, t2),
            (.n_p, n), (.vp_x, some a), (.vp_y, some b), (.vp_z, some c)] ∧
      (Ropt = none → w1 = none ∧ w2 = none ∧ t1 = none ∧ t2 = none ∧
        n = none) := by
  cases Ropt with
  | none =>
    simp only [process_fitparams, Option.map_none'] at h
    split at h
    · exact Sum.noConfusion h
    · obtain rfl := Sum.inr.inj h
      exact ⟨none, none, none, none, none, _, _, _, rfl,
        fun _ => ⟨rfl, rfl, rfl, rfl, rfl⟩⟩
  | some R =>
    simp only [process_fitparams, Option.map_some'] at h
    split at h
    · exact Sum.noConfusion h
    · obtain rfl := Sum.inr.inj h
      refine ⟨some |fp.vthPerp|, some |fp.vthPar|,
        some (ctx.vth2tempF |fp.vthPerp|), some (ctx.vth2tempF |fp.vthPar|),
        some (fp.A * ctx.pi32 * |fp.vthPerp| * 1000 * |fp.vthPerp| * 1000 *
          |fp.vthPar| * 1000 * (1 / 1000000)),
        (scVel (some R) fp).x + params.helios_vr,
        (scVel (some R) fp).y + params.helios_v,
        (scVel (some R) fp).z, rfl, fun hc => ?_⟩
      cases hc

theorem fitStage_cases (ctx : Ctx) (params : DistParams) (fit_1D : Fit1D)
    (Ropt : Option Mat3) (vs vprime : List Vec3) (df : List ℚ)
    (starttime : ℚ) (instrument : ℤ) (btag bx0 by0 bz0 sb0 : Option ℚ) :
    (∃ s : ℤ, (s = 4 ∨ s = 6 ∨ s = 11 ∨ s = 12) ∧
      fitStage ctx
        [(.Instrument, some ((instrument : ℤ) : ℚ)), (.B_instrument, btag),
         (.Bx, bx0), (.By, by0), (.Bz, bz0), (.sigmaB, sb0)]
        params fit_1D Ropt vs vprime df starttime instrument =
        return_nans s starttime instrument) ∨
    (∃ w1 w2 t1 t2 n vx vy vz : Option ℚ,
      fitStage ctx
        [(.Instrument, some ((instrument : ℤ) : ℚ)), (.B_instrument, btag),
         (.Bx, bx0), (.By, by0), (.Bz, bz0), (.sigmaB, sb0)]
        params fit_1D Ropt vs vprime df starttime instrument =
        [(.Instrument, some ((instrument : ℤ) : ℚ)), (.B_instrument, btag),
         (.Bx, bx0), (.By, by0), (.Bz, bz0), (.sigmaB, sb0),
         (.vth_p_perp, w1), (.vth_p_par, w2), (.Tp_perp, t1), (.Tp_par, t2),
         (.n_p, n), (.vp_x, vx), (.vp_y, vy), (.vp_z, vz),
         (.Time, some starttime),
         (.Status, some (((if Ropt.isSome = true then (1 : ℤ) else 2) : ℤ) : ℚ))] ∧
      (Ropt = none → w1 = none ∧ w2 = none ∧ t1 = none ∧ t2 = none ∧
        n = none) ∧
      vx.isSome = true ∧ vy.isSome = true ∧ vz.isSome = true) := by
  simp only [fitStage]
  by_cases hc :
      converged (ctx.leastsq (guessesOf ctx fit_1D vprime df) vprime df).2
  · rw [if_pos hc]
    by_cases h11 :
        ampOutOfRange (ctx.leastsq (guessesOf ctx fit_1D vprime df) vprime
          df).1 df ∧ Ropt.isSome = true
    · rw [if_pos h11]
      exact Or.inl ⟨11, by norm_num, rfl⟩
    · rw [if_neg h11]
      by_cases h12 :
          vthDegenerate (ctx.leastsq (guessesOf ctx fit_1D vprime df) vprime
            df).1 ∧ Ropt.isSome = true
      · rw [if_pos h12]
        exact Or.inl ⟨12, by norm_num, rfl⟩
      · rw [if_neg h12]
        split
        · rename_i s hp
          obtain rfl := process_inl _ _ _ _ _ _ hp
          exact Or.inl ⟨4, by norm_num, rfl⟩
        · rename_i fd hp
          obtain ⟨w1, w2, t1, t2, n, a, b, c, rfl, hnone⟩ :=
            process_inr _ _ _ _ _ _ hp
          exact Or.inr ⟨w1, w2, t1, t2, n, some a, some b, some c, rfl,
            hnone, rfl, rfl, rfl⟩
  · rw [if_neg hc]
    exact Or.inl ⟨6, by norm_num, rfl⟩

theorem magResolve_tag_of_empty (mag4hz mag6s : Option (List MagSample))
    (stw etw : ℚ)
    (h : (magResolve mag4hz mag6s stw etw).2 = none) :
    (magResolve mag4hz mag6s stw etw).1 =
      mag6s.elim (some 1) (fun _ => none) := by
  cases mag4hz with
  | none =>
    cases mag6s with
    | none => rfl
    | some s6 =>
      by_cases h6 : (magWindow s6 stw etw).isEmpty = true
      · simp [magResolve, h6]
      · simp [magResolve, h6] at h
  | some s4 =>
    by_cases h4 : (magWindow s4 stw etw).isEmpty = true
    · cases mag6s with
      | none => simp [magResolve, h4]
      | some s6 =>
        by_cases h6 : (magWindow s6 stw etw).isEmpty = true
        · simp [magResolve, h4, h6]
        · simp [magResolve, h4, h6] at h
    · simp [magResolve, h4] at h

theorem iondist_cases (ctx : Ctx) (dist : List Sample) (params : DistParams)
    (fit_1D : Fit1D) (mag4hz mag6s : Option (List MagSample)) (starttime : ℚ)
    (I1a I1b : List I1aRow) (pf : Bool) :
    (∃ s : ℤ, (s = 4 ∨ s = 5 ∨ s = 6 ∨ s = 9 ∨ s = 10 ∨ s = 11 ∨ s = 12) ∧
      iondistfitting ctx dist params fit_1D mag4hz mag6s starttime I1a I1b pf =
        return_nans s starttime params.ion_instrument) ∨
    (∃ (bx0 by0 bz0 sb0 w1 w2 t1 t2 n vx vy vz : Option ℚ) (status : ℤ),
      iondistfitting ctx dist params fit_1D mag4hz mag6s starttime I1a I1b pf =
        [(.Instrument, some ((params.ion_instrument : ℤ) : ℚ)),
         (.B_instrument,
           (magResolve mag4hz mag6s (stOf (truncDist dist I1a) starttime)
             (etOf (truncDist dist I1a) starttime)).1),
         (.Bx, bx0), (.By, by0), (.Bz, bz0), (.sigmaB, sb0),
         (.vth_p_perp, w1), (.vth_p_par, w2), (.Tp_perp, t1), (.Tp_par, t2),
         (.n_p, n), (.vp_x, vx), (.vp_y, vy), (.vp_z, vz),
         (.Time, some starttime), (.Status, some ((status : ℤ) : ℚ))] ∧
      ((magResolve mag4hz mag6s (stOf (truncDist dist I1a) starttime)
          (etOf (truncDist dist I1a) starttime)).2.isSome = true →
        status = 1 ∧ (∃ q, bx0 = some q) ∧ (∃ q, by0 = some q) ∧
        (∃ q, bz0 = some q) ∧ (∃ q, sb0 = some q)) ∧
      ((magResolve mag4hz mag6s (stOf (truncDist dist I1a) starttime)
          (etOf (truncDist dist I1a) starttime)).2 = none →
        status = 2 ∧ bx0 = none ∧ by0 = none ∧ bz0 = none ∧ sb0 = none ∧
        w1 = none ∧ w2 = none ∧ t1 = none ∧ t2 = none ∧ n = none) ∧
      vx.isSome = true ∧ vy.isSome = true ∧ vz.isSome = true) := by
  cases hpre : preGateStatus dist fit_1D I1a with
  | some s =>
    rcases preGate_mem _ _ _ _ hpre with h | h | h | h <;> subst h <;>
      exact Or.inl ⟨_, by norm_num,
        iondist_pre ctx dist params fit_1D mag4hz mag6s starttime I1a I1b pf
          _ hpre⟩
  | none =>
    rw [iondist_main ctx dist params fit_1D mag4hz mag6s starttime I1a I1b pf
      hpre]
    simp only [afterGates]
    rcases hmr : magResolve mag4hz mag6s (stOf (truncDist dist I1a) starttime)
        (etOf (truncDist dist I1a) starttime) with ⟨btag, magsel⟩
    cases magsel with
    | some mag =>
      rcases fitStage_cases ctx params fit_1D
          (some (ctx.rotmat (magMean mag))) (vsOf (truncDist dist I1a))
          ((vsOf (truncDist dist I1a)).map (matvec (ctx.rotmat (magMean mag))))
          (dfOf (truncDist dist I1a)) starttime params.ion_instrument
          btag (some (magMean mag).x) (some (magMean mag).y)
          (some (magMean mag).z) (some (ctx.sqrtQ (magVarSum mag)))
        with ⟨s, hs, heq⟩ | ⟨w1, w2, t1, t2, n, vx, vy, vz, heq, _, hx, hy, hz⟩
      · exact Or.inl ⟨s, by omega, heq⟩
      · refine Or.inr ⟨some (magMean mag).x, some (magMean mag).y,
          some (magMean mag).z, some (ctx.sqrtQ (magVarSum mag)),
          w1, w2, t1, t2, n, vx, vy, vz, 1, heq, ?_, ?_, hx, hy, hz⟩
        · exact fun _ => ⟨rfl, ⟨_, rfl⟩, ⟨_, rfl⟩, ⟨_, rfl⟩, ⟨_, rfl⟩⟩
        · intro hcontra
          exact absurd hcontra (by simp)
    | none =>
      rcases fitStage_cases ctx params fit_1D none (vsOf (truncDist dist I1a))
          (vsOf (truncDist dist I1a)) (dfOf (truncDist dist I1a)) starttime
          params.ion_instrument btag none none none none
        with ⟨s, hs, heq⟩ |
          ⟨w1, w2, t1, t2, n, vx, vy, vz, heq, hnone, hx, hy, hz⟩
      · exact Or.inl ⟨s, by omega, heq⟩
      · obtain ⟨hw1, hw2, ht1, ht2, hn⟩ := hnone rfl
        refine Or.inr ⟨none, none, none, none, w1, w2, t1, t2, n, vx, vy, vz,
          2, heq, ?_, ?_, hx, hy, hz⟩
        · intro hcontra
          exact absurd hcontra (by simp)
        · exact fun _ => ⟨rfl, rfl, rfl, rfl, rfl, hw1, hw2, ht1, ht2, hn⟩

/-- C7: converting a temperature to a thermal speed and back returns the
temperature exactly, for every particle mass m > 0 and temperature T > 0
(the ideal-gas relation makes the two conversions mutually inverse). -/
theorem vth_temp_roundtrip (T m : ℝ) (hT : 0 < T) (hm : 0 < m) :
    vth2temp (temp2vth T m) m = T := by
  have hkB : (0 : ℝ) < kB := by norm_num [kB]
  unfold vth2temp temp2vth
  rw [Real.sq_sqrt (by positivity)]
  field_simp

/-- Witness for C7: the round trip at T = 3, m = 2. -/
theorem vth_temp_roundtrip_witness : vth2temp (temp2vth 3 2) 2 = 3 :=
  vth_temp_roundtrip 3 2 (by norm_num) (by norm_num)

/-- C8: the missing-data constructor fails its assertion exactly when the
status value is not an integer; for every integer status it returns
normally, with every physical field the missing sentinel and the given
time, status and instrument. -/
theorem return_nans_status_assert (s : PyVal) (t : ℚ) (i : ℤ) :
    (s.isInt = false →
      return_nansPy s t i = Except.error "Status code must be an integer") ∧
    (∀ n : ℤ, s = PyVal.pyInt n →
      return_nansPy s t i = Except.ok (return_nans n t i) ∧
      recFind (return_nans n t i) .n_p = some none ∧
      recFind (return_nans n t i) .vth_p_perp = some none ∧
      recFind (return_nans n t i) .vth_p_par = some none ∧
      recFind (return_nans n t i) .Tp_perp = some none ∧
      recFind (return_nans n t i) .Tp_par = some none ∧
      recFind (return_nans n t i) .vp_x = some none ∧
      recFind (return_nans n t i) .vp_y = some none ∧
      recFind (return_nans n t i) .vp_z = some none ∧
      recFind (return_nans n t i) .Time = some (some t) ∧
      recFind (return_nans n t i) .Status = some (some (n : ℚ)) ∧
      recFind (return_nans n t i) .Instrument = some (some (i : ℚ))) := by
  constructor
  · intro h
    cases s with
    | pyInt k => simp [PyVal.isInt] at h
    | pyFloat q => rfl
    | pyStr st => rfl
  · rintro n rfl
    exact ⟨rfl, rfl, rfl, rfl, rfl, rfl, rfl, rfl, rfl, rfl, rfl, rfl⟩

/-- Witness for C8: a float status trips the assertion, an integer status
returns the all-missing record. -/
theorem return_nans_status_assert_witness :
    return_nansPy (PyVal.pyFloat (7 / 2)) 0 1 =
      Except.error "Status code must be an integer" ∧
    return_nansPy (PyVal.pyInt 5) 0 1 = Except.ok (return_nans 5 0 1) :=
  ⟨(return_nans_status_assert (PyVal.pyFloat (7 / 2)) 0 1).1 rfl,
   ((return_nans_status_assert (PyVal.pyInt 5) 0 1).2 5 rfl).1⟩

/-- C3: the pre-fit gates are checked in a fixed order and the first failing
gate's status is returned: 1-D status 9 → 9; negative count → 9; ≤ 6
samples after truncation → 5; fewer than 3 azimuth or elevation bins → 12;
minimum sample velocity above the 1-D peak estimate → 10. -/
theorem preGates_first_failing_wins (ctx : Ctx) (dist : List Sample)
    (params : DistParams) (fit_1D : Fit1D)
    (mag4hz mag6s : Option (List MagSample)) (starttime : ℚ)
    (I1a I1b : List I1aRow) (pf : Bool) :
    (gateTwoDists fit_1D →
      recFind (iondistfitting ctx dist params fit_1D mag4hz mag6s starttime
        I1a I1b pf) .Status = some (some 9)) ∧
    (¬gateTwoDists fit_1D → gateNegCounts dist →
      recFind (iondistfitting ctx dist params fit_1D mag4hz mag6s starttime
        I1a I1b pf) .Status = some (some 9)) ∧
    (¬gateTwoDists fit_1D → ¬gateNegCounts dist → gateFewPoints dist I1a →
      recFind (iondistfitting ctx dist params fit_1D mag4hz mag6s starttime
        I1a I1b pf) .Status = some (some 5)) ∧
    (¬gateTwoDists fit_1D → ¬gateNegCounts dist → ¬gateFewPoints dist I1a →
      gateFewAngles dist I1a →
      recFind (iondistfitting ctx dist params fit_1D mag4hz mag6s starttime
        I1a I1b pf) .Status = some (some 12)) ∧
    (¬gateTwoDists fit_1D → ¬gateNegCounts dist → ¬gateFewPoints dist I1a →
      ¬gateFewAngles dist I1a → gateNoPeak dist I1a →
      recFind (iondistfitting ctx dist params fit_1D mag4hz mag6s starttime
        I1a I1b pf) .Status = some (some 10)) := by
  have hpre : ∀ c : ℤ, preGateStatus dist fit_1D I1a = some c →
      recFind (iondistfitting ctx dist params fit_1D mag4hz mag6s starttime
        I1a I1b pf) .Status = some (some (c : ℚ)) := by
    intro c hc
    rw [iondist_pre ctx dist params fit_1D mag4hz mag6s starttime I1a I1b pf
      c hc]
    rfl
  refine ⟨?_, ?_, ?_, ?_, ?_⟩
  · intro h1
    have := hpre 9 (by simp only [preGateStatus]; rw [if_pos h1])
    simpa using this
  · intro h1 h2
    have := hpre 9 (by simp only [preGateStatus]; rw [if_neg h1, if_pos h2])
    simpa using this
  · intro h1 h2 h3
    have := hpre 5
      (by simp only [preGateStatus]; rw [if_neg h1, if_neg h2, if_pos h3])
    simpa using this
  · intro h1 h2 h3 h4
    have := hpre 12
      (by simp only [preGateStatus]
          rw [if_neg h1, if_neg h2, if_neg h3, if_pos h4])
    simpa using this
  · intro h1 h2 h3 h4 h5
    have := hpre 10
      (by simp only [preGateStatus]
          rw [if_neg h1, if_neg h2, if_neg h3, if_neg h4, if_pos h5])
    simpa using this

/-- Witness for C3: on an input where both the 1-D-status-9 gate and the
negative-count gate fail, the first one decides the status (9). -/
theorem preGates_first_failing_wins_witness :
    recFind (iondistfitting (mkCtx ⟨1, 30, 25, 0, 0, 1⟩ 1) dBadD paramsD
      ⟨9, none⟩ none none 0 i1aD [] false) .Status = some (some 9) ∧
    gateNegCounts dBadD ∧ gateFewPoints dBadD i1aD :=
  ⟨(preGates_first_failing_wins (mkCtx ⟨1, 30, 25, 0, 0, 1⟩ 1) dBadD paramsD
      ⟨9, none⟩ none none 0 i1aD [] false).1 rfl,
   by norm_num [gateNegCounts, dBadD],
   by norm_num [gateFewPoints, truncDist, vmax1a, i1aD, dBadD,
     List.filter_cons]⟩

/-- C5: the post-fit plausibility gates are enforced only when field context
is present: with a rotation matrix (field resolved), an implausible
amplitude gives status 11 and a degenerate thermal speed gives status 12;
without field context both checks are skipped, and a converged fit ends
with status 2 (success without field) or 4 (velocity bounds) — never 11 or
12 at this stage. -/
theorem postfit_gates_need_field (ctx : Ctx) (output : OutRec)
    (params : DistParams) (fit_1D : Fit1D) (Ropt : Option Mat3)
    (vs vprime : List Vec3) (df : List ℚ) (starttime : ℚ) (instrument : ℤ)
    (hconv :
      converged (ctx.leastsq (guessesOf ctx fit_1D vprime df) vprime df).2) :
    (Ropt.isSome = true →
      ampOutOfRange (ctx.leastsq (guessesOf ctx fit_1D vprime df) vprime
        df).1 df →
      fitStage ctx output params fit_1D Ropt vs vprime df starttime
        instrument = return_nans 11 starttime instrument) ∧
    (Ropt.isSome = true →
      ¬ampOutOfRange (ctx.leastsq (guessesOf ctx fit_1D vprime df) vprime
        df).1 df →
      vthDegenerate (ctx.leastsq (guessesOf ctx fit_1D vprime df) vprime
        df).1 →
      fitStage ctx output params fit_1D Ropt vs vprime df starttime
        instrument = return_nans 12 starttime instrument) ∧
    (Ropt = none →
      recFind (fitStage ctx output params fit_1D Ropt vs vprime df starttime
        instrument) .Status = some (some 2) ∨
      recFind (fitStage ctx output params fit_1D Ropt vs vprime df starttime
        instrument) .Status = some (some 4)) := by
  refine ⟨?_, ?_, ?_⟩
  · intro hR hamp
    simp only [fitStage]
    rw [if_pos hconv, if_pos ⟨hamp, hR⟩]
  · intro hR hamp hvth
    simp only [fitStage]
    rw [if_pos hconv, if_neg (fun hc => hamp hc.1), if_pos ⟨hvth, hR⟩]
  · rintro rfl
    simp only [fitStage]
    rw [if_pos hconv, if_neg (fun hc => Bool.noConfusion hc.2),
      if_neg (fun hc => Bool.noConfusion hc.2)]
    split
    · rename_i s hp
      obtain rfl := process_inl _ _ _ _ _ _ hp
      right
      norm_num [return_nans, recFind]
      rfl
    · rename_i fd hp
      left
      rw [recFind_insert, recFind_insert]
      norm_num
      exact fun h => absurd h (by decide)

/-- Witness for C5: with field context present and an amplitude 100 against
a maximum density of 1, the converged fit is rejected with status 11. -/
theorem postfit_gates_need_field_witness :
    fitStage (mkCtx ⟨100, 30, 25, 0, 0, 0⟩ 1) [] paramsD fit1dD (some idMat)
      [⟨0, 0, 0⟩] [⟨0, 0, 0⟩] [1] 0 1 = return_nans 11 0 1 :=
  (postfit_gates_need_field (mkCtx ⟨100, 30, 25, 0, 0, 0⟩ 1) [] paramsD
    fit1dD (some idMat) [⟨0, 0, 0⟩] [⟨0, 0, 0⟩] [1] 0 1
    (Or.inl rfl)).1 rfl (by norm_num [ampOutOfRange, qmax, mkCtx])

/-- C4 (amended): for a converged fit that passes the post-fit plausibility
gates, a spacecraft-frame bulk velocity outside the per-axis sample range
(or with squared magnitude below the minimum squared sample speed) is
rejected with status exactly 4 and every physical field missing. -/
theorem bulk_velocity_bounds_status4 (ctx : Ctx) (output : OutRec)
    (params : DistParams) (fit_1D : Fit1D) (Ropt : Option Mat3)
    (vs vprime : List Vec3) (df : List ℚ) (starttime : ℚ) (instrument : ℤ)
    (hconv :
      converged (ctx.leastsq (guessesOf ctx fit_1D vprime df) vprime df).2)
    (h11 : ¬(ampOutOfRange (ctx.leastsq (guessesOf ctx fit_1D vprime df)
      vprime df).1 df ∧ Ropt.isSome = true))
    (h12 : ¬(vthDegenerate (ctx.leastsq (guessesOf ctx fit_1D vprime df)
      vprime df).1 ∧ Ropt.isSome = true))
    (hout : velOutOfBounds
      (scVel Ropt (ctx.leastsq (guessesOf ctx fit_1D vprime df) vprime df).1)
      vs = true) :
    fitStage ctx output params fit_1D Ropt vs vprime df starttime
      instrument = return_nans 4 starttime instrument ∧
    recFind (fitStage ctx output params fit_1D Ropt vs vprime df starttime
      instrument) .Status = some (some 4) ∧
    recFind (fitStage ctx output params fit_1D Ropt vs vprime df starttime
      instrument) .n_p = some none ∧
    recFind (fitStage ctx output params fit_1D Ropt vs vprime df starttime
      instrument) .vth_p_perp = some none ∧
    recFind (fitStage ctx output params fit_1D Ropt vs vprime df starttime
      instrument) .vth_p_par = some none ∧
    recFind (fitStage ctx output params fit_1D Ropt vs vprime df starttime
      instrument) .Tp_perp = some none ∧
    recFind (fitStage ctx output params fit_1D Ropt vs vprime df starttime
      instrument) .Tp_par = some none ∧
    recFind (fitStage ctx output params fit_1D Ropt vs vprime df starttime
      instrument) .vp_x = some none ∧
    recFind (fitStage ctx output params fit_1D Ropt vs vprime df starttime
      instrument) .vp_y = some none ∧
    recFind (fitStage ctx output params fit_1D Ropt vs vprime df starttime
      instrument) .vp_z = some none := by
  have hp : process_fitparams ctx params Ropt vs
      (ctx.leastsq (guessesOf ctx fit_1D vprime df) vprime df).1 =
      Sum.inl 4 := by
    simp only [process_fitparams]
    rw [if_pos hout]
  have heq : fitStage ctx output params fit_1D Ropt vs vprime df starttime
      instrument = return_nans 4 starttime instrument := by
    simp only [fitStage]
    rw [if_pos hconv, if_neg h11, if_neg h12, hp]
  rw [heq]
  refine ⟨rfl, ?_, rfl, rfl, rfl, rfl, rfl, rfl, rfl, rfl⟩
  norm_num [return_nans, recFind]
  rfl

/-- Witness for C4 (amended): a converged plausible fit with bulk velocity
(50,0,0) against samples spanning [0,1] per axis is rejected with status
4. -/
theorem bulk_velocity_bounds_status4_witness :
    fitStage (mkCtx ⟨1, 30, 25, 50, 0, 0⟩ 1) [] paramsD fit1dD (some idMat)
      [⟨0, 0, 0⟩, ⟨1, 1, 1⟩] [⟨0, 0, 0⟩] [1] 0 1 = return_nans 4 0 1 :=
  (bulk_velocity_bounds_status4 (mkCtx ⟨1, 30, 25, 50, 0, 0⟩ 1) [] paramsD
    fit1dD (some idMat) [⟨0, 0, 0⟩, ⟨1, 1, 1⟩] [⟨0, 0, 0⟩] [1] 0 1
    (Or.inl rfl)
    (by norm_num [ampOutOfRange, qmax, mkCtx])
    (by norm_num [vthDegenerate, mkCtx])
    (by norm_num [velOutOfBounds, scVel, matvec, transposeM, idMat, dot3,
      qmin, qmax, normSq, mkCtx, min_def, max_def])).1

/-- Counterexample for C4 as stated: with field context, a converged fit
whose bulk velocity is far outside the sample bounds AND whose amplitude is
implausible gets status 11, not 4 — the amplitude gate precedes the
bounds check. -/
theorem bulk_velocity_bounds_status4_cex :
    velOutOfBounds (scVel (some idMat) ⟨100, 30, 25, 50, 0, 0⟩)
      (vsOf (truncDist sampleD i1aD)) = true ∧
    converged ((mkCtx ⟨100, 30, 25, 50, 0, 0⟩ 1).leastsq
      (guessesOf (mkCtx ⟨100, 30, 25, 50, 0, 0⟩ 1) fit1dD
        ((vsOf (truncDist sampleD i1aD)).map (matvec idMat))
        (dfOf (truncDist sampleD i1aD)))
      ((vsOf (truncDist sampleD i1aD)).map (matvec idMat))
      (dfOf (truncDist sampleD i1aD))).2 ∧
    recFind (iondistfitting (mkCtx ⟨100, 30, 25, 50, 0, 0⟩ 1) sampleD paramsD
      fit1dD mag4D none 0 i1aD [] false) .Status = some (some 11) ∧
    ¬recFind (iondistfitting (mkCtx ⟨100, 30, 25, 50, 0, 0⟩ 1) sampleD
      paramsD fit1dD mag4D none 0 i1aD [] false) .Status = some (some 4) := by
  refine ⟨?_, Or.inl rfl, ?_, ?_⟩
  · norm_num [velOutOfBounds, scVel, matvec, transposeM, idMat, dot3,
      qmin, qmax, normSq, min_def, max_def, vsOf, truncDist, vmax1a, i1aD,
      sampleD, List.filter_cons]
  · norm_num [iondistfitting, preGateStatus, truncDist, vmax1a, i1aD,
      sampleD, afterGates, magResolve, fitStage, process_fitparams, mkCtx,
      paramsD, fit1dD, mag4D, recInsert, recFind, recUpdate, qmin, qmax,
      zmin, zmax, vsOf, dfOf, wmean, vthpGuess, guessesOf, scVel,
      velOutOfBounds, normSq, magWindow, magMean, varOf, magVarSum, stOf,
      etOf, dfArgmax, matvec, transposeM, dot3, return_nans, idMat,
      converged, ampOutOfRange, vthDegenerate, List.filter_cons, min_def,
      max_def]
    rfl
  · norm_num [iondistfitting, preGateStatus, truncDist, vmax1a, i1aD,
      sampleD, afterGates, magResolve, fitStage, process_fitparams, mkCtx,
      paramsD, fit1dD, mag4D, recInsert, recFind, recUpdate, qmin, qmax,
      zmin, zmax, vsOf, dfOf, wmean, vthpGuess, guessesOf, scVel,
      velOutOfBounds, normSq, magWindow, magMean, varOf, magVarSum, stOf,
      etOf, dfArgmax, matvec, transposeM, dot3, return_nans, idMat,
      converged, ampOutOfRange, vthDegenerate, List.filter_cons, min_def,
      max_def]
    intro h
    have h11 : some (some (11 : ℚ)) = some (some (4 : ℚ)) := h
    norm_num at h11

/-- C1 (amended): when magnetic field data exists in the measurement window,
the mean field vector and sigma B survive into the returned record only on
the full-success path (status 1); the terminal rejections with status 4, 6,
11 and 12 return the all-missing record, whose field entries are the
missing sentinel. -/
theorem bfield_kept_only_on_success (ctx : Ctx) (dist : List Sample)
    (params : DistParams) (fit_1D : Fit1D)
    (mag4hz mag6s : Option (List MagSample)) (starttime : ℚ)
    (I1a I1b : List I1aRow) (pf : Bool)
    (hmag : (magResolve mag4hz mag6s (stOf (truncDist dist I1a) starttime)
      (etOf (truncDist dist I1a) starttime)).2.isSome = true) :
    (recFind (iondistfitting ctx dist params fit_1D mag4hz mag6s starttime
        I1a I1b pf) .Status = some (some 1) →
      (∃ q, recFind (iondistfitting ctx dist params fit_1D mag4hz mag6s
        starttime I1a I1b pf) .Bx = some (some q)) ∧
      (∃ q, recFind (iondistfitting ctx dist params fit_1D mag4hz mag6s
        starttime I1a I1b pf) .By = some (some q)) ∧
      (∃ q, recFind (iondistfitting ctx dist params fit_1D mag4hz mag6s
        starttime I1a I1b pf) .Bz = some (some q)) ∧
      (∃ q, recFind (iondistfitting ctx dist params fit_1D mag4hz mag6s
        starttime I1a I1b pf) .sigmaB = some (some q))) ∧
    (∀ s : ℤ, (s = 4 ∨ s = 6 ∨ s = 11 ∨ s = 12) →
      recFind (iondistfitting ctx dist params fit_1D mag4hz mag6s starttime
        I1a I1b pf) .Status = some (some (s : ℚ)) →
      recFind (iondistfitting ctx dist params fit_1D mag4hz mag6s starttime
        I1a I1b pf) .Bx = some none ∧
      recFind (iondistfitting ctx dist params fit_1D mag4hz mag6s starttime
        I1a I1b pf) .By = some none ∧
      recFind (iondistfitting ctx dist params fit_1D mag4hz mag6s starttime
        I1a I1b pf) .Bz = some none ∧
      recFind (iondistfitting ctx dist params fit_1D mag4hz mag6s starttime
        I1a I1b pf) .sigmaB = some none) := by
  rcases iondist_cases ctx dist params fit_1D mag4hz mag6s starttime I1a I1b
      pf with ⟨s, hs, heq⟩ | ⟨bx0, by0, bz0, sb0, w1, w2, t1, t2, n, vx, vy,
        vz, status, heq, hsome, _, _, _, _⟩
  · rw [heq]
    constructor
    · intro hst
      exfalso
      have h1 : recFind (return_nans s starttime params.ion_instrument)
          .Status = some (some (s : ℚ)) := rfl
      rw [h1] at hst
      have : (s : ℚ) = 1 := Option.some.inj (Option.some.inj hst)
      have hs1 : s = 1 := by exact_mod_cast this
      omega
    · intro s' _ _
      exact ⟨rfl, rfl, rfl, rfl⟩
  · obtain ⟨hst1, hbx, hby, hbz, hsb⟩ := hsome hmag
    subst hst1
    obtain ⟨qx, rfl⟩ := hbx
    obtain ⟨qy, rfl⟩ := hby
    obtain ⟨qz, rfl⟩ := hbz
    obtain ⟨qs, rfl⟩ := hsb
    rw [heq]
    constructor
    · intro _
      exact ⟨⟨qx, rfl⟩, ⟨qy, rfl⟩, ⟨qz, rfl⟩, ⟨qs, rfl⟩⟩
    · intro s' hs' hst
      exfalso
      have h1 : recFind
          [((.Instrument : FieldKey),
             some ((params.ion_instrument : ℤ) : ℚ)),
           (.B_instrument,
             (magResolve mag4hz mag6s (stOf (truncDist dist I1a) starttime)
               (etOf (truncDist dist I1a) starttime)).1),
           (.Bx, some qx), (.By, some qy), (.Bz, some qz), (.sigmaB, some qs),
           (.vth_p_perp, w1), (.vth_p_par, w2), (.Tp_perp, t1), (.Tp_par, t2),
           (.n_p, n), (.vp_x, vx), (.vp_y, vy), (.vp_z, vz),
           (.Time, some starttime), (.Status, some (((1 : ℤ) : ℤ) : ℚ))]
          .Status = some (some ((1 : ℤ) : ℚ)) := rfl
      rw [h1] at hst
      have : ((1 : ℤ) : ℚ) = (s' : ℚ) := Option.some.inj (Option.some.inj hst)
      have hs1 : s' = 1 := by exact_mod_cast this.symm
      omega

/-- Witness for C1 (amended): a full success run with field data keeps a
real Bx in the returned record. -/
theorem bfield_kept_only_on_success_witness :
    ∃ q, recFind (iondistfitting (mkCtx ⟨1, 30, 25, 0, 0, 1⟩ 1) sampleD
      paramsD fit1dD mag4D none 0 i1aD [] false) .Bx = some (some q) := by
  have h := bfield_kept_only_on_success (mkCtx ⟨1, 30, 25, 0, 0, 1⟩ 1)
    sampleD paramsD fit1dD mag4D none 0 i1aD [] false (by
      norm_num [magResolve, magWindow, stOf, etOf, truncDist, vmax1a,
        i1aD, sampleD, mag4D, zmin, zmax, List.filter_cons])
  refine (h.1 ?_).1
  norm_num [iondistfitting, preGateStatus, truncDist, vmax1a, i1aD,
    sampleD, afterGates, magResolve, fitStage, process_fitparams, mkCtx,
    paramsD, fit1dD, mag4D, recInsert, recFind, recUpdate, qmin, qmax,
    zmin, zmax, vsOf, dfOf, wmean, vthpGuess, guessesOf, scVel,
    velOutOfBounds, normSq, magWindow, magMean, varOf, magVarSum, stOf,
    etOf, dfArgmax, matvec, transposeM, dot3, return_nans, idMat,
    converged, ampOutOfRange, vthDegenerate, List.filter_cons, min_def,
    max_def]
  intros
  rfl

/-- Counterexample for C1 as stated: field data exists in the window, the
solver fails (status 6), and the returned record's Bx/By/Bz/sigma B are the
missing sentinel — the resolved field was not stored in the output. -/
theorem bfield_kept_only_on_success_cex :
    (magResolve mag4D none (stOf (truncDist sampleD i1aD) 0)
      (etOf (truncDist sampleD i1aD) 0)).2.isSome = true ∧
    recFind (iondistfitting (mkCtx ⟨1, 30, 25, 0, 0, 1⟩ 0) sampleD paramsD
      fit1dD mag4D none 0 i1aD [] false) .Status = some (some 6) ∧
    recFind (iondistfitting (mkCtx ⟨1, 30, 25, 0, 0, 1⟩ 0) sampleD paramsD
      fit1dD mag4D none 0 i1aD [] false) .Bx = some none ∧
    recFind (iondistfitting (mkCtx ⟨1, 30, 25, 0, 0, 1⟩ 0) sampleD paramsD
      fit1dD mag4D none 0 i1aD [] false) .By = some none ∧
    recFind (iondistfitting (mkCtx ⟨1, 30, 25, 0, 0, 1⟩ 0) sampleD paramsD
      fit1dD mag4D none 0 i1aD [] false) .Bz = some none ∧
    recFind (iondistfitting (mkCtx ⟨1, 30, 25, 0, 0, 1⟩ 0) sampleD paramsD
      fit1dD mag4D none 0 i1aD [] false) .sigmaB = some none := by
  refine ⟨?_, ?_⟩
  · norm_num [magResolve, magWindow, stOf, etOf, truncDist, vmax1a, i1aD,
      sampleD, mag4D, zmin, zmax, List.filter_cons]
  · have heval : iondistfitting (mkCtx ⟨1, 30, 25, 0, 0, 1⟩ 0) sampleD
        paramsD fit1dD mag4D none 0 i1aD [] false = return_nans 6 0 1 := by
      norm_num [iondistfitting, preGateStatus, truncDist, vmax1a, i1aD,
        sampleD, afterGates, magResolve, fitStage, process_fitparams, mkCtx,
        paramsD, fit1dD, mag4D, recInsert, recUpdate, qmin, qmax,
        zmin, zmax, vsOf, dfOf, wmean, vthpGuess, guessesOf, scVel,
        velOutOfBounds, normSq, magWindow, magMean, varOf, magVarSum, stOf,
        etOf, dfArgmax, matvec, transposeM, dot3, return_nans, idMat,
        converged, ampOutOfRange, vthDegenerate, List.filter_cons, min_def,
        max_def]
    rw [heval]
    refine ⟨?_, rfl, rfl, rfl, rfl⟩
    norm_num [return_nans, recFind]
    rfl

/-- C2 (amended): when no magnetic field sample is selected from either
series, the returned record has Bx/By/Bz/sigma B missing and both
temperatures missing, and a fit that otherwise succeeds gets status 2 (a
full-success status 1 is impossible); however the `B instrument` tag on
the success record is missing only when the low-cadence series was present
(with no in-window sample) — when the low-cadence series is absent the
source's dangling `else` tags `B instrument` as 1. -/
theorem no_bfield_outputs (ctx : Ctx) (dist : List Sample)
    (params : DistParams) (fit_1D : Fit1D)
    (mag4hz mag6s : Option (List MagSample)) (starttime : ℚ)
    (I1a I1b : List I1aRow) (pf : Bool)
    (hmag : (magResolve mag4hz mag6s (stOf (truncDist dist I1a) starttime)
      (etOf (truncDist dist I1a) starttime)).2 = none) :
    recFind (iondistfitting ctx dist params fit_1D mag4hz mag6s starttime
      I1a I1b pf) .Bx = some none ∧
    recFind (iondistfitting ctx dist params fit_1D mag4hz mag6s starttime
      I1a I1b pf) .By = some none ∧
    recFind (iondistfitting ctx dist params fit_1D mag4hz mag6s starttime
      I1a I1b pf) .Bz = some none ∧
    recFind (iondistfitting ctx dist params fit_1D mag4hz mag6s starttime
      I1a I1b pf) .sigmaB = some none ∧
    recFind (iondistfitting ctx dist params fit_1D mag4hz mag6s starttime
      I1a I1b pf) .Tp_perp = some none ∧
    recFind (iondistfitting ctx dist params fit_1D mag4hz mag6s starttime
      I1a I1b pf) .Tp_par = some none ∧
    ¬recFind (iondistfitting ctx dist params fit_1D mag4hz mag6s starttime
      I1a I1b pf) .Status = some (some 1) ∧
    (recFind (iondistfitting ctx dist params fit_1D mag4hz mag6s starttime
        I1a I1b pf) .Status = some (some 2) →
      recFind (iondistfitting ctx dist params fit_1D mag4hz mag6s starttime
        I1a I1b pf) .B_instrument =
        some (mag6s.elim (some 1) (fun _ => none))) := by
  rcases iondist_cases ctx dist params fit_1D mag4hz mag6s starttime I1a I1b
      pf with ⟨s, hs, heq⟩ | ⟨bx0, by0, bz0, sb0, w1, w2, t1, t2, n, vx, vy,
        vz, status, heq, _, hnone, _, _, _⟩
  · rw [heq]
    refine ⟨rfl, rfl, rfl, rfl, rfl, rfl, ?_, ?_⟩
    · intro hst
      have h1 : recFind (return_nans s starttime params.ion_instrument)
          .Status = some (some (s : ℚ)) := rfl
      rw [h1] at hst
      have : (s : ℚ) = 1 := Option.some.inj (Option.some.inj hst)
      have hs1 : s = 1 := by exact_mod_cast this
      omega
    · intro hst
      exfalso
      have h1 : recFind (return_nans s starttime params.ion_instrument)
          .Status = some (some (s : ℚ)) := rfl
      rw [h1] at hst
      have : (s : ℚ) = 2 := Option.some.inj (Option.some.inj hst)
      have hs1 : s = 2 := by exact_mod_cast this
      omega
  · obtain ⟨hst2, hbx, hby, hbz, hsb, hw1, hw2, ht1, ht2, hn⟩ := hnone hmag
    subst hst2
    subst hbx
    subst hby
    subst hbz
    subst hsb
    subst ht1
    subst ht2
    rw [heq]
    refine ⟨rfl, rfl, rfl, rfl, rfl, rfl, ?_, ?_⟩
    · intro hst
      have h1 : ((2 : ℤ) : ℚ) = ((1 : ℤ) : ℚ) :=
        Option.some.inj (Option.some.inj hst)
      norm_num at h1
    · intro _
      have htag := magResolve_tag_of_empty mag4hz mag6s
        (stOf (truncDist dist I1a) starttime)
        (etOf (truncDist dist I1a) starttime) hmag
      rw [htag]
      rfl

/-- Witness for C2 (amended): with the 4 Hz series absent and the 6 s
series entirely outside the window, Bx in the returned record is missing. -/
theorem no_bfield_outputs_witness :
    recFind (iondistfitting (mkCtx ⟨1, 30, 25, 0, 0, 1⟩ 1) sampleD paramsD
      fit1dD none mag6Dout 0 i1aD [] false) .Bx = some none :=
  (no_bfield_outputs (mkCtx ⟨1, 30, 25, 0, 0, 1⟩ 1) sampleD paramsD fit1dD
    none mag6Dout 0 i1aD [] false
    (by norm_num [magResolve, magWindow, stOf, etOf, truncDist, vmax1a,
      i1aD, sampleD, mag6Dout, zmin, zmax, List.filter_cons])).1

/-- Counterexample for C2 as stated: with both field series absent the fit
succeeds with status 2, yet `B instrument` is 1, not missing — the source's
`else` on line 133 fires although no field data exists. -/
theorem no_bfield_outputs_cex :
    (magResolve none none (stOf (truncDist sampleD i1aD) 0)
      (etOf (truncDist sampleD i1aD) 0)).2 = none ∧
    recFind (iondistfitting (mkCtx ⟨1, 30, 25, 0, 0, 1⟩ 1) sampleD paramsD
      fit1dD none none 0 i1aD [] false) .Status = some (some 2) ∧
    recFind (iondistfitting (mkCtx ⟨1, 30, 25, 0, 0, 1⟩ 1) sampleD paramsD
      fit1dD none none 0 i1aD [] false) .B_instrument = some (some 1) := by
  refine ⟨rfl, ?_, ?_⟩
  · norm_num [iondistfitting, preGateStatus, truncDist, vmax1a, i1aD,
      sampleD, afterGates, magResolve, fitStage, process_fitparams, mkCtx,
      paramsD, fit1dD, recInsert, recFind, recUpdate, qmin, qmax,
      zmin, zmax, vsOf, dfOf, wmean, vthpGuess, guessesOf, scVel,
      velOutOfBounds, normSq, magWindow, magMean, varOf, magVarSum, stOf,
      etOf, dfArgmax, matvec, transposeM, dot3, return_nans, idMat,
      converged, ampOutOfRange, vthDegenerate, List.filter_cons, min_def,
      max_def]
    intros
    rfl
  · norm_num [iondistfitting, preGateStatus, truncDist, vmax1a, i1aD,
      sampleD, afterGates, magResolve, fitStage, process_fitparams, mkCtx,
      paramsD, fit1dD, recInsert, recFind, recUpdate, qmin, qmax,
      zmin, zmax, vsOf, dfOf, wmean, vthpGuess, guessesOf, scVel,
      velOutOfBounds, normSq, magWindow, magMean, varOf, magVarSum, stOf,
      etOf, dfArgmax, matvec, transposeM, dot3, return_nans, idMat,
      converged, ampOutOfRange, vthDegenerate, List.filter_cons, min_def,
      max_def]

/-- C9: on a successful fit without field context (status 2) the thermal
speeds are missing as claimed, but the density n_p is missing too — the
thermal-speed slots are overwritten with the missing sentinel before the
density formula reads them — while the bulk-velocity components are real.
This contradicts the source's own comment ("still get a number density and
velocities", line 156). -/
theorem nofield_density_nan :
    recFind (iondistfitting (mkCtx ⟨1, 30, 25, 0, 0, 1⟩ 1) sampleD paramsD
      fit1dD none none 0 i1aD [] false) .Status = some (some 2) ∧
    recFind (iondistfitting (mkCtx ⟨1, 30, 25, 0, 0, 1⟩ 1) sampleD paramsD
      fit1dD none none 0 i1aD [] false) .vth_p_perp = some none ∧
    recFind (iondistfitting (mkCtx ⟨1, 30, 25, 0, 0, 1⟩ 1) sampleD paramsD
      fit1dD none none 0 i1aD [] false) .vth_p_par = some none ∧
    recFind (iondistfitting (mkCtx ⟨1, 30, 25, 0, 0, 1⟩ 1) sampleD paramsD
      fit1dD none none 0 i1aD [] false) .n_p = some none ∧
    recFind (iondistfitting (mkCtx ⟨1, 30, 25, 0, 0, 1⟩ 1) sampleD paramsD
      fit1dD none none 0 i1aD [] false) .vp_x = some (some 0) ∧
    recFind (iondistfitting (mkCtx ⟨1, 30, 25, 0, 0, 1⟩ 1) sampleD paramsD
      fit1dD none none 0 i1aD [] false) .vp_y = some (some 0) ∧
    recFind (iondistfitting (mkCtx ⟨1, 30, 25, 0, 0, 1⟩ 1) sampleD paramsD
      fit1dD none none 0 i1aD [] false) .vp_z = some (some 1) := by
  have heval : iondistfitting (mkCtx ⟨1, 30, 25, 0, 0, 1⟩ 1) sampleD paramsD
      fit1dD none none 0 i1aD [] false =
      [(.Instrument, some 1), (.B_instrument, some 1), (.Bx, none),
       (.By, none), (.Bz, none), (.sigmaB, none), (.vth_p_perp, none),
       (.vth_p_par, none), (.Tp_perp, none), (.Tp_par, none), (.n_p, none),
       (.vp_x, some 0), (.vp_y, some 0), (.vp_z, some 1), (.Time, some 0),
       (.Status, some 2)] := by
    norm_num [iondistfitting, preGateStatus, truncDist, vmax1a, i1aD,
      sampleD, afterGates, magResolve, fitStage, process_fitparams, mkCtx,
      paramsD, fit1dD, recInsert, recUpdate, qmin, qmax,
      zmin, zmax, vsOf, dfOf, wmean, vthpGuess, guessesOf, scVel,
      velOutOfBounds, normSq, magWindow, magMean, varOf, magVarSum, stOf,
      etOf, dfArgmax, matvec, transposeM, dot3, return_nans, idMat,
      converged, ampOutOfRange, vthDegenerate, List.filter_cons, min_def,
      max_def]
    rfl
  rw [heval]
  exact ⟨rfl, rfl, rfl, rfl, rfl, rfl, rfl⟩

/-- C6: the driver always returns a record whose key set is exactly the
full data-model field list, with the Status key always carrying a value —
on every success and every rejection path, for every context and input. -/
theorem record_shape_complete (ctx : Ctx) (dist : List Sample)
    (params : DistParams) (fit_1D : Fit1D)
    (mag4hz mag6s : Option (List MagSample)) (starttime : ℚ)
    (I1a I1b : List I1aRow) (pf : Bool) :
    (recKeys (iondistfitting ctx dist params fit_1D mag4hz mag6s starttime
      I1a I1b pf)).toFinset = allFields.toFinset ∧
    (∀ k, k ∈ allFields →
      (recFind (iondistfitting ctx dist params fit_1D mag4hz mag6s starttime
        I1a I1b pf) k).isSome = true) ∧
    (∃ q : ℚ, recFind (iondistfitting ctx dist params fit_1D mag4hz mag6s
      starttime I1a I1b pf) .Status = some (some q)) := by
  rcases iondist_cases ctx dist params fit_1D mag4hz mag6s starttime I1a I1b
      pf with ⟨s, hs, heq⟩ | ⟨bx0, by0, bz0, sb0, w1, w2, t1, t2, n, vx, vy,
        vz, status, heq, _, _, _, _, _⟩
  · rw [heq]
    refine ⟨?_, ?_, ⟨(s : ℚ), rfl⟩⟩
    · show ([.n_p, .vth_p_perp, .vth_p_par, .Tp_perp, .Tp_par, .vp_x, .vp_y,
        .vp_z, .Time, .Status, .Instrument, .B_instrument, .Bx, .By, .Bz,
        .sigmaB] : List FieldKey).toFinset = allFields.toFinset
      decide
    · intro k hk
      simp only [allFields, List.mem_cons, List.mem_nil_iff, or_false] at hk
      rcases hk with rfl | rfl | rfl | rfl | rfl | rfl | rfl | rfl | rfl |
        rfl | rfl | rfl | rfl | rfl | rfl | rfl <;> rfl
  · rw [heq]
    refine ⟨?_, ?_, ⟨((status : ℤ) : ℚ), rfl⟩⟩
    · show ([.Instrument, .B_instrument, .Bx, .By, .Bz, .sigmaB,
        .vth_p_perp, .vth_p_par, .Tp_perp, .Tp_par, .n_p, .vp_x, .vp_y,
        .vp_z, .Time, .Status] : List FieldKey).toFinset = allFields.toFinset
      decide
    · intro k hk
      simp only [allFields, List.mem_cons, List.mem_nil_iff, or_false] at hk
      rcases hk with rfl | rfl | rfl | rfl | rfl | rfl | rfl | rfl | rfl |
        rfl | rfl | rfl | rfl | rfl | rfl | rfl <;> rfl

/-- C10: every status the driver returns is one of 1, 2, 4, 5, 6, 9, 10,
11, 12 — in particular statuses 3 and 13 of the status dictionary are never
produced. -/
theorem status_enumerated (ctx : Ctx) (dist : List Sample)
    (params : DistParams) (fit_1D : Fit1D)
    (mag4hz mag6s : Option (List MagSample)) (starttime : ℚ)
    (I1a I1b : List I1aRow) (pf : Bool) :
    ∃ s : ℤ, recFind (iondistfitting ctx dist params fit_1D mag4hz mag6s
        starttime I1a I1b pf) .Status = some (some (s : ℚ)) ∧
      (s = 1 ∨ s = 2 ∨ s = 4 ∨ s = 5 ∨ s = 6 ∨ s = 9 ∨ s = 10 ∨ s = 11 ∨
        s = 12) ∧ s ≠ 3 ∧ s ≠ 13 := by
  rcases iondist_cases ctx dist params fit_1D mag4hz mag6s starttime I1a I1b
      pf with ⟨s, hs, heq⟩ | ⟨bx0, by0, bz0, sb0, w1, w2, t1, t2, n, vx, vy,
        vz, status, heq, hsome, hnone, _, _, _⟩
  · rw [heq]
    exact ⟨s, rfl, by omega, by omega, by omega⟩
  · rw [heq]
    cases hms : (magResolve mag4hz mag6s (stOf (truncDist dist I1a) starttime)
        (etOf (truncDist dist I1a) starttime)).2 with
    | some mag =>
      obtain ⟨h1, -, -, -, -⟩ := hsome (by rw [hms]; rfl)
      subst h1
      exact ⟨1, rfl, by norm_num, by norm_num, by norm_num⟩
    | none =>
      obtain ⟨h2, -, -, -, -, -, -, -, -, -⟩ := hnone hms
      subst h2
      exact ⟨2, rfl, by norm_num, by norm_num, by norm_num⟩

/-- Witness for C6: at a concrete input, the Bx key is present in the
returned record. -/
theorem record_shape_complete_witness :
    (recFind (iondistfitting (mkCtx ⟨1, 30, 25, 0, 0, 1⟩ 1) sampleD paramsD
      fit1dD none none 0 i1aD [] false) .Bx).isSome = true :=
  (record_shape_complete (mkCtx ⟨1, 30, 25, 0, 0, 1⟩ 1) sampleD paramsD
    fit1dD none none 0 i1aD [] false).2.1 .Bx (by decide)

/-- Witness for C10: the status set theorem applied at a concrete input. -/
theorem status_enumerated_witness :
    ∃ s : ℤ, recFind (iondistfitting (mkCtx ⟨1, 30, 25, 0, 0, 1⟩ 1) sampleD
        paramsD fit1dD none none 0 i1aD [] false) .Status =
        some (some (s : ℚ)) ∧
      (s = 1 ∨ s = 2 ∨ s = 4 ∨ s = 5 ∨ s = 6 ∨ s = 9 ∨ s = 10 ∨ s = 11 ∨
        s = 12) ∧ s ≠ 3 ∧ s ≠ 13 :=
  status_enumerated (mkCtx ⟨1, 30, 25, 0, 0, 1⟩ 1) sampleD paramsD fit1dD
    none none 0 i1aD [] false
